import Mathlib

/-!
# trading_server: credential verification with lockout, and token refresh

A shallow embedding of `src/models/User.js` and `src/controllers/auth/auth.js`.

* Documents of the `User` collection are records; the collection is a list.
* `async` methods that mutate `this` return the document as it is after the
  call, the value returned or the error thrown, and the list of calls made to
  collaborators (`bcrypt.compare`, `this.save()`).
* `this.save()` validates the whole document against the schema before it
  writes: when a validator fails nothing is stored and the method throws.
* The clock is explicit: every `new Date()` / `Date.now()` in the source is a
  separate reading, in milliseconds since the epoch.
* `bcryptjs` and `jsonwebtoken` are libraries outside the repository; they
  enter as a parameter (`Bcrypt`) and as an ideal signature model (`jwtSign`,
  `jwtVerify`).
-/

namespace TradingServer

/-! ## Errors (`src/errors`) -/

/-- The error classes thrown by the code; `Error` is the plain JavaScript
error raised by a library, `ValidationError` the error with which `save()`
rejects a document that fails a validator of the schema. -/
inductive ErrorKind
  | BadRequestError
  | NotFoundError
  | UnauthenticateError
  | Error
  | ValidationError
  deriving DecidableEq, Repr

/-- A thrown error: its class and its message. -/
structure ApiError where
  kind : ErrorKind
  message : String
  deriving DecidableEq, Repr

/-! ## The `User` schema (`src/models/User.js`, lines 10-69) -/

/-- A document of the `User` collection. Optional paths without a default are
`none` when unset; dates are milliseconds since the epoch. The paths
`date_of_birth`, `biometricKey` and `gender`, which no function below reads or
writes, are taken as unset. -/
structure User where
  _id : Nat
  email : String
  password : Option String
  name : Option String
  login_pin : Option String
  phone_number : Option String
  wrong_pin_attempts : Nat
  blocked_until_pin : Option Nat
  wrong_password_attempts : Nat
  blocked_until_password : Option Nat
  balance : Nat
  deriving DecidableEq, Repr

/-! ## The validators of the schema -/

/-- Regular expressions over characters, for the two `match` validators. -/
inductive Regex
  | nothing
  | eps
  | char (p : Char → Bool)
  | seq (a b : Regex)
  | alt (a b : Regex)
  | star (a : Regex)

/-- Whether the expression matches the empty string. -/
def Regex.nullable : Regex → Bool
  | .nothing => false
  | .eps => true
  | .char _ => false
  | .seq a b => a.nullable && b.nullable
  | .alt a b => a.nullable || b.nullable
  | .star _ => true

/-- Whether the expression is syntactically the one that matches nothing. -/
def Regex.isNothing : Regex → Bool
  | .nothing => true
  | _ => false

/-- Sequence, dropping a branch that matches nothing. -/
def Regex.mkSeq (a b : Regex) : Regex :=
  if a.isNothing || b.isNothing then .nothing else .seq a b

/-- Alternative, dropping a branch that matches nothing. -/
def Regex.mkAlt (a b : Regex) : Regex :=
  if a.isNothing then b else if b.isNothing then a else .alt a b

/-- The expression matching what may follow the character `c`. -/
def Regex.deriv (c : Char) : Regex → Regex
  | .nothing => .nothing
  | .eps => .nothing
  | .char p => if p c then .eps else .nothing
  | .seq a b =>
    if a.nullable then Regex.mkAlt (Regex.mkSeq (a.deriv c) b) (b.deriv c)
    else Regex.mkSeq (a.deriv c) b
  | .alt a b => Regex.mkAlt (a.deriv c) (b.deriv c)
  | .star a => Regex.mkSeq (a.deriv c) (.star a)

/-- `regExp.test(v)` for an expression anchored at both ends (`^...$`). -/
def Regex.test (r : Regex) (v : String) : Bool :=
  (v.data.foldl (fun q c => q.deriv c) r).nullable

/-- One or more repetitions (`+`). -/
def Regex.plus (a : Regex) : Regex := .seq a (.star a)

/-- At most one occurrence (`?`). -/
def Regex.opt (a : Regex) : Regex := .alt .eps a

/-- The class `\w`: ASCII letters, digits and the underscore. -/
def Regex.word : Regex := .char (fun c => c.isAlphanum || c == '_')

/-- The class `\d`: ASCII digits. -/
def Regex.digit : Regex := .char (fun c => c.isDigit)

/-- `\w+([\.-]?\w+)*`, the shape of both sides of the `@` in the email
pattern. -/
def Regex.wordRun : Regex :=
  .seq (Regex.plus Regex.word)
    (.star (.seq (Regex.opt (.char (fun c => c == '.' || c == '-'))) (Regex.plus Regex.word)))

/-- The pattern of the `email` path (line 17):
`^\w+([\.-]?\w+)*@\w+([\.-]?\w+)*(\.\w{2,3})+$`. -/
def emailPattern : Regex :=
  .seq Regex.wordRun
    (.seq (.char (fun c => c == '@'))
      (.seq Regex.wordRun
        (Regex.plus
          (.seq (.char (fun c => c == '.'))
            (.seq Regex.word (.seq Regex.word (Regex.opt Regex.word)))))))

/-- The pattern of the `phone_number` path (line 36): `^\d{10}$`. -/
def phonePattern : Regex :=
  .seq Regex.digit (.seq Regex.digit (.seq Regex.digit (.seq Regex.digit (.seq Regex.digit
    (.seq Regex.digit (.seq Regex.digit (.seq Regex.digit (.seq Regex.digit Regex.digit))))))))

/-- A `match` validator: it passes on the empty string, otherwise it tests the
pattern. -/
def matchValidator (pattern : Regex) (v : String) : Bool :=
  if v = "" then true else pattern.test v

/-- The validators of the schema (lines 12-39) that fail on a document, each as
`path: message`, listed in schema order. A validator other than `required`
does not run on an unset path. Lengths are counted in characters. The option
`minlenght` of `name` (line 27) is not an option Mongoose knows and adds no
validator. -/
def validationErrors (doc : User) : List String :=
  (if doc.email = "" then ["email: Path `email` is required."]
    else if matchValidator emailPattern doc.email then []
    else ["email: Please fill a valid email"])
  ++ (match doc.name with
    | none => []
    | some v =>
      if v.length ≤ 50 then []
      else ["name: Path `name` (`" ++ v
        ++ "`) is longer than the maximum allowed length (50)."])
  ++ (match doc.login_pin with
    | none => []
    | some v =>
      (if v.length ≤ 4 then []
        else ["login_pin: Path `login_pin` (`" ++ v
          ++ "`) is longer than the maximum allowed length (4)."])
      ++ (if v.length ≥ 4 then []
        else ["login_pin: Path `login_pin` (`" ++ v
          ++ "`) is shorter than the minimum allowed length (4)."]))
  ++ (match doc.phone_number with
    | none => []
    | some v =>
      if matchValidator phonePattern v then []
      else ["phone_number: Please fill a valid phone number"])

/-- The validation `doc.save()` runs first: `none` when every validator
passes, otherwise the `ValidationError` with which `save()` rejects. -/
def validate (doc : User) : Option ApiError :=
  match validationErrors doc with
  | [] => none
  | errors => some ⟨.ValidationError, "User validation failed: " ++ ", ".intercalate errors⟩

/-! ## bcryptjs -/

/-- The hashing primitive: `hash secret salt` is the digest, `verify secret
digest` tells whether the secret matches the digest. -/
structure Bcrypt where
  hash : String → String → String
  verify : String → String → Bool

/-- `bcrypt.compare(s, hash)`: rejects when the digest is not a string (an
unset path), otherwise resolves to the verdict of the primitive. -/
def Bcrypt.compare (B : Bcrypt) (s : String) (hash : Option String) : Except ApiError Bool :=
  match hash with
  | none => .error ⟨.Error, "Illegal arguments: string, undefined"⟩
  | some h => .ok (B.verify s h)

/-! ## Instance methods -/

/-- A call made by a method to a collaborator. -/
inductive Effect
  | bcryptCompare (s : String) (hash : Option String)
  | save (doc : User)
  deriving DecidableEq, Repr

/-- What a method call on a document leaves behind: the document after the
call, the value returned or the error thrown, and the collaborator calls in
order. -/
structure Call (α : Type) where
  self : User
  value : Except ApiError α
  effects : List Effect

/-- The two clock readings of `comparePassword` / `comparePin`: `new Date()`
in the lockout guard and `Date.now()` when the lockout is set. -/
structure CompareClock where
  guard : Nat
  lock : Nat
  deriving DecidableEq, Repr

/-- The guard `this.blocked_until && this.blocked_until > new Date()`. -/
def isBlocked (blocked_until : Option Nat) (now : Nat) : Bool :=
  match blocked_until with
  | none => false
  | some t => decide (t > now)

/-- What a method that ends in `await this.save(); return isMatch` yields for
the document `doc` it saves: the `ValidationError` of `save()` when a validator
fails, otherwise `isMatch`. -/
def afterSave (doc : User) (isMatch : Bool) : Except ApiError Bool :=
  match validate doc with
  | some e => .error e
  | none => .ok isMatch

/-- `userSchema.methods.comparePassword` (lines 149-169). -/
def comparePassword (B : Bcrypt) (clock : CompareClock) (self : User)
    (candidatePassword : String) : Call Bool :=
  if isBlocked self.blocked_until_password clock.guard then
    { self := self
      value := .error ⟨.UnauthenticateError,
        "Invalid login attempts exceeded. Please try after 30 minutes."⟩
      effects := [] }
  else
    match B.compare candidatePassword self.password with
    | .error e =>
      { self := self, value := .error e,
        effects := [.bcryptCompare candidatePassword self.password] }
    | .ok isMatch =>
      if !isMatch then
        let s1 := { self with wrong_password_attempts := self.wrong_password_attempts + 1 }
        let s2 :=
          if s1.wrong_password_attempts ≥ 3 then
            { s1 with
              blocked_until_password := some (clock.lock + 30 * 60 * 1000)
              wrong_password_attempts := 0 }
          else s1
        { self := s2, value := afterSave s2 isMatch,
          effects := [.bcryptCompare candidatePassword self.password, .save s2] }
      else
        let s1 := { self with wrong_password_attempts := 0, blocked_until_password := none }
        { self := s1, value := afterSave s1 isMatch,
          effects := [.bcryptCompare candidatePassword self.password, .save s1] }

/-- `userSchema.methods.comparePin` (lines 171-193). -/
def comparePin (B : Bcrypt) (clock : CompareClock) (self : User)
    (candidatePin : String) : Call Bool :=
  if isBlocked self.blocked_until_pin clock.guard then
    { self := self
      value := .error ⟨.UnauthenticateError,
        "Invalid PIN attempts exceeded. Please try after 30 minutes."⟩
      effects := [] }
  else
    let hashedPin := self.login_pin
    match B.compare candidatePin hashedPin with
    | .error e =>
      { self := self, value := .error e,
        effects := [.bcryptCompare candidatePin hashedPin] }
    | .ok isMatch =>
      if !isMatch then
        let s1 := { self with wrong_pin_attempts := self.wrong_pin_attempts + 1 }
        let s2 :=
          if s1.wrong_pin_attempts ≥ 3 then
            { s1 with
              blocked_until_pin := some (clock.lock + 30 * 60 * 1000)
              wrong_pin_attempts := 0 }
          else s1
        { self := s2, value := afterSave s2 isMatch,
          effects := [.bcryptCompare candidatePin hashedPin, .save s2] }
      else
        let s1 := { self with wrong_pin_attempts := 0, blocked_until_pin := none }
        { self := s1, value := afterSave s1 isMatch,
          effects := [.bcryptCompare candidatePin hashedPin, .save s1] }

/-! ## The collection -/

/-- The `User` collection. -/
abbrev Store := List User

/-- `User.findOne({ email })`: the first document with this email. -/
def findOne (s : Store) (email : String) : Option User :=
  s.find? (fun u => decide (u.email = email))

/-- `User.findById(id)`: the first document with this `_id`; an undefined id
finds nothing. -/
def findById (s : Store) (id : Option Nat) : Option User :=
  match id with
  | none => none
  | some i => s.find? (fun u => decide (u._id = i))

/-- `doc.save()` of a loaded document: when a validator of the schema fails
nothing is stored, otherwise the stored document with the same `_id` is
replaced. The `pre("save")` hooks (lines 71-86) rehash `password` and
`login_pin` only when those paths were modified, which no method below does. -/
def saveDoc (s : Store) (doc : User) : Store :=
  match validate doc with
  | some _ => s
  | none => s.map (fun u => if u._id = doc._id then doc else u)

/-- `User.findOneAndUpdate({ email }, update)`: the first document with this
email is updated; save hooks do not run. -/
def findOneAndUpdate (s : Store) (email : String) (update : User → User) : Store :=
  match s with
  | [] => []
  | u :: rest =>
    if u.email = email then update u :: rest
    else u :: findOneAndUpdate rest email update

/-- The collection after the `save` calls of a method have been carried out. -/
def applyEffects (s : Store) (effects : List Effect) : Store :=
  match effects with
  | [] => s
  | .save doc :: rest => applyEffects (saveDoc s doc) rest
  | .bcryptCompare _ _ :: rest => applyEffects s rest

/-- The document `User.create({ email, password })` stores (as `register`
calls it): schema defaults, and the `pre("save")` hook hashes the password
with a fresh salt. -/
def User.create (B : Bcrypt) (salt : String) (_id : Nat) (email password : String) : User :=
  { _id := _id
    email := email
    password := some (B.hash password salt)
    name := none
    login_pin := none
    phone_number := none
    wrong_pin_attempts := 0
    blocked_until_pin := none
    wrong_password_attempts := 0
    blocked_until_password := none
    balance := 50000 }

/-! ## Static methods -/

/-- The object returned by `updatePin` / `updatePassword`. -/
structure UpdateResult where
  success : Bool
  message : String
  deriving DecidableEq, Repr

/-- `userSchema.statics.updatePin` (lines 88-114); `salt` is the result of
`bcrypt.genSalt(10)`. The `catch` logs and rethrows the same error. -/
def updatePin (B : Bcrypt) (salt : String) (s : Store) (email newPin : String) :
    Store × Except ApiError UpdateResult :=
  match findOne s email with
  | none => (s, .error ⟨.NotFoundError, "User not found"⟩)
  | some user =>
    match B.compare newPin user.login_pin with
    | .error e => (s, .error e)
    | .ok isSamePin =>
      if isSamePin then
        (s, .error ⟨.BadRequestError, "New PIN cannot be the same as the old PIN"⟩)
      else
        let hashedPin := B.hash newPin salt
        (findOneAndUpdate s email (fun u =>
            { u with login_pin := some hashedPin, wrong_pin_attempts := 0,
                     blocked_until_pin := none }),
          .ok { success := true, message := "PIN updated successfully" })

/-- `userSchema.statics.updatePassword` (lines 116-147). -/
def updatePassword (B : Bcrypt) (salt : String) (s : Store) (email newPassword : String) :
    Store × Except ApiError UpdateResult :=
  match findOne s email with
  | none => (s, .error ⟨.NotFoundError, "User not found"⟩)
  | some user =>
    match B.compare newPassword user.password with
    | .error e => (s, .error e)
    | .ok isSamePassword =>
      if isSamePassword then
        (s, .error ⟨.BadRequestError, "New password cannot be the same as the old password"⟩)
      else
        let hashedPassword := B.hash newPassword salt
        (findOneAndUpdate s email (fun u =>
            { u with password := some hashedPassword, wrong_password_attempts := 0,
                     blocked_until_password := none }),
          .ok { success := true, message := "Password updated successfully" })

/-! ## jsonwebtoken and the environment -/

/-- The claims the code signs: `{ userId, name }` or `{ userId }`. -/
structure Payload where
  userId : Option Nat
  name : Option String
  deriving DecidableEq, Repr

/-- A token string: either one produced by signing a payload under a secret,
with issue and expiry instants in seconds, or any other string. -/
inductive Token
  | signed (payload : Payload) (secret : String) (iat exp : Nat)
  | malformed (raw : String)
  deriving DecidableEq, Repr

/-- The variables of `process.env` the code reads. A secret is `none` when the
variable is unset; an expiry is the timespan in seconds the variable denotes,
`none` when it is unset. A value that is set but denotes no timespan is not
represented. -/
structure Env where
  JWT_SECRET : Option String
  ACCESS_TOKEN_EXPIRY : Option Nat
  REFRESH_TOKEN_SECRET : Option String
  REFRESH_TOKEN_EXPIRY : Option Nat
  SOCKET_TOKEN_SECRET : Option String
  SOCKET_TOKEN_EXPIRY : Option Nat
  REFRESH_SCOKET_TOKEN_SECRET : Option String
  REFRESH_SCOKET_TOKEN_EXPIRY : Option Nat
  REFRESH_SOCKET_TOKEN_EXPIRY : Option Nat
  deriving DecidableEq, Repr

/-- `jwt.sign(payload, secret, { expiresIn })` at clock reading `now`: throws
without a secret or when `expiresIn` is undefined, otherwise the token carries
the payload, bound to the secret, expiring `expiresIn` seconds after issue. -/
def jwtSign (payload : Payload) (secret : Option String) (expiresIn : Option Nat) (now : Nat) :
    Except ApiError Token :=
  match secret, expiresIn with
  | none, _ => .error ⟨.Error, "secretOrPrivateKey must have a value"⟩
  | some k, none =>
    if k = "" then .error ⟨.Error, "secretOrPrivateKey must have a value"⟩
    else .error ⟨.Error,
      "\"expiresIn\" should be a number of seconds or string representing a timespan"⟩
  | some k, some d =>
    if k = "" then .error ⟨.Error, "secretOrPrivateKey must have a value"⟩
    else .ok (.signed payload k (now / 1000) (now / 1000 + d))

/-- `jwt.verify(token, secret)` at clock reading `now`: the payload when the
token was signed under this secret and has not expired, otherwise throws. -/
def jwtVerify (token : Token) (secret : Option String) (now : Nat) : Except ApiError Payload :=
  match token with
  | .malformed _ => .error ⟨.Error, "jwt malformed"⟩
  | .signed payload key _ exp =>
    match secret with
    | none => .error ⟨.Error, "secret or public key must be provided"⟩
    | some k =>
      if k = "" then .error ⟨.Error, "secret or public key must be provided"⟩
      else if key ≠ k then .error ⟨.Error, "invalid signature"⟩
      else if now / 1000 ≥ exp then .error ⟨.Error, "jwt expired"⟩
      else .ok payload

/-- `userSchema.methods.createAccessToken` (lines 196-204). -/
def createAccessToken (env : Env) (now : Nat) (self : User) : Except ApiError Token :=
  jwtSign { userId := some self._id, name := self.name } env.JWT_SECRET
    env.ACCESS_TOKEN_EXPIRY now

/-- `userSchema.methods.createRefreshToken` (lines 206-214). -/
def createRefreshToken (env : Env) (now : Nat) (self : User) : Except ApiError Token :=
  jwtSign { userId := some self._id, name := self.name } env.REFRESH_TOKEN_SECRET
    env.REFRESH_TOKEN_EXPIRY now

/-! ## Controllers (`src/controllers/auth/auth.js`) -/

/-- A string-valued path is truthy when it is set and non-empty. -/
def truthy (x : Option String) : Bool :=
  match x with
  | none => false
  | some v => decide (v ≠ "")

/-- `Math.ceil(a / b)` for an integer `a` and a positive integer `b`, in exact
integer arithmetic. -/
def ceilDiv (a b : Int) : Int := -((-a) / b)

/-- The body of a login request. -/
structure LoginBody where
  email : Option String
  password : Option String
  deriving DecidableEq, Repr

/-- The clock readings of `login`, in order: those of `comparePassword`,
`new Date()` in the blocked test (line 62), `new Date()` in the remaining
minutes (line 65), and the two token issues. -/
structure LoginClock where
  compare : CompareClock
  check : Nat
  remaining : Nat
  access : Nat
  refresh : Nat
  deriving DecidableEq, Repr

/-- The `user` object of the login response. -/
structure LoginUser where
  name : Option String
  email : String
  userId : Nat
  phone_exist : Bool
  login_pin_exist : Bool
  deriving DecidableEq, Repr

/-- The JSON answer of `login`, with its status code. -/
structure LoginResponse where
  status : Nat
  user : LoginUser
  access_token : Token
  refresh_token : Token
  deriving DecidableEq, Repr

/-- The message `login` builds after `comparePassword` returned false (lines
59-74); `user` is the document as the method left it. -/
def loginFailureMessage (clock : LoginClock) (user : User) : String :=
  let attemptsMessage : String :=
    let attemptsRemaining : Int := 3 - (user.wrong_password_attempts : Int)
    if attemptsRemaining > 0 then
      "Invalid password. You have " ++ toString attemptsRemaining ++ " attempts remaining "
    else "Invalid login attempts exceeded. Please try after 30 minutes."
  match user.blocked_until_password with
  | none => attemptsMessage
  | some blocked_until =>
    if blocked_until > clock.check then
      let remainingMinutes :=
        ceilDiv ((blocked_until : Int) - (clock.remaining : Int)) (1000 * 60)
      "Your account is blocked for password. Please try again after "
        ++ toString remainingMinutes ++ " minutes."
    else attemptsMessage

/-- `login` (lines 46-100): the collection after the request, and the answer
or the error thrown. `user.phone` is not a path of the schema, so
`phone_exist` stays false. -/
def login (B : Bcrypt) (env : Env) (clock : LoginClock) (s : Store) (body : LoginBody) :
    Store × Except ApiError LoginResponse :=
  match body.email, body.password with
  | some email, some password =>
    if email = "" || password = "" then
      (s, .error ⟨.BadRequestError, "Please provide all values"⟩)
    else
      match findOne s email with
      | none => (s, .error ⟨.UnauthenticateError, "Invalid Credentials"⟩)
      | some doc =>
        let call := comparePassword B clock.compare doc password
        let s1 := applyEffects s call.effects
        let user := call.self
        match call.value with
        | .error e => (s1, .error e)
        | .ok isPasswordCorrect =>
          if !isPasswordCorrect then
            (s1, .error ⟨.UnauthenticateError, loginFailureMessage clock user⟩)
          else
            match createAccessToken env clock.access user with
            | .error e => (s1, .error e)
            | .ok access_token =>
              match createRefreshToken env clock.refresh user with
              | .error e => (s1, .error e)
              | .ok refresh_token =>
                (s1, .ok
                  { status := 200
                    user :=
                      { name := user.name
                        email := user.email
                        userId := user._id
                        phone_exist := false
                        login_pin_exist := truthy user.login_pin }
                    access_token := access_token
                    refresh_token := refresh_token })
  | _, _ => (s, .error ⟨.BadRequestError, "Please provide all values"⟩)

/-- A JavaScript object literal holding tokens: keys with their values. -/
abbrev TokenObject := List (String × Token)

/-- The clock readings of `generateRefreshTokens`: `jwt.verify` and the two
`jwt.sign` calls. -/
structure RefreshClock where
  verify : Nat
  access : Nat
  refresh : Nat
  deriving DecidableEq, Repr

/-- `generateRefreshTokens` (lines 141-167): the object
`{ access_token, newRefreshToken }`; every error of the body is caught and
replaced. -/
def generateRefreshTokens (clock : RefreshClock) (s : Store) (token : Token)
    (refresh_secret : Option String) (refresh_expiry : Option Nat)
    (access_secret : Option String) (access_expiry : Option Nat) :
    Except ApiError TokenObject :=
  let body : Except ApiError TokenObject :=
    match jwtVerify token refresh_secret clock.verify with
    | .error e => .error e
    | .ok payload =>
      match findById s payload.userId with
      | none => .error ⟨.NotFoundError, "User not found"⟩
      | some _ =>
        match jwtSign { userId := payload.userId, name := none } access_secret access_expiry
            clock.access with
        | .error e => .error e
        | .ok access_token =>
          match jwtSign { userId := payload.userId, name := none } refresh_secret
              refresh_expiry clock.refresh with
          | .error e => .error e
          | .ok newRefreshToken =>
            .ok [("access_token", access_token), ("newRefreshToken", newRefreshToken)]
  match body with
  | .error _ => .error ⟨.UnauthenticateError, "Invalid refresh token"⟩
  | .ok obj => .ok obj

/-- The body of a refresh request. -/
structure RefreshBody where
  type : Option String
  refresh_token : Option Token
  deriving DecidableEq, Repr

/-- The JSON answer of `refreshToken`, with its status code; a key whose value
is `undefined` is absent from the JSON. -/
structure RefreshResponse where
  status : Nat
  access_token : Option Token
  refresh_token : Option Token
  deriving DecidableEq, Repr

/-- `refreshToken` (lines 108-139). A body without `type` or `refresh_token`,
or with an empty one, or with a type other than "socket" and "app", is
rejected. The destructuring `({ accessToken, newRefreshToken } = ...)` reads
the keys `accessToken` and `newRefreshToken` of the object returned by
`generateRefreshTokens`. -/
def refreshToken (env : Env) (clock : RefreshClock) (s : Store) (body : RefreshBody) :
    Except ApiError RefreshResponse :=
  match body.type, body.refresh_token with
  | some type, some refresh_token =>
    if type = "" || !(["socket", "app"].contains type)
        || refresh_token = .malformed "" then
      .error ⟨.BadRequestError, "Invalid body"⟩
    else
      let generated : Except ApiError TokenObject :=
        if type = "socket" then
          generateRefreshTokens clock s refresh_token
            env.REFRESH_SCOKET_TOKEN_SECRET env.REFRESH_SCOKET_TOKEN_EXPIRY
            env.SOCKET_TOKEN_SECRET env.SOCKET_TOKEN_EXPIRY
        else if type = "app" then
          generateRefreshTokens clock s refresh_token
            env.REFRESH_TOKEN_SECRET env.REFRESH_SOCKET_TOKEN_EXPIRY
            env.JWT_SECRET env.ACCESS_TOKEN_EXPIRY
        else .ok []
      match generated with
      | .error _ => .error ⟨.UnauthenticateError, "Invalid token"⟩
      | .ok obj =>
        .ok { status := 200
              access_token := obj.lookup "accessToken"
              refresh_token := obj.lookup "newRefreshToken" }
  | _, _ => .error ⟨.BadRequestError, "Invalid body"⟩

/-! ## Sequences of calls on the collection -/

/-- One call of the credential core, made by a caller that loads the document
by email first (as `login` does) for the two instance methods. -/
inductive Op
  | comparePassword (email candidate : String) (clock : CompareClock)
  | comparePin (email candidate : String) (clock : CompareClock)
  | updatePassword (email newPassword salt : String)
  | updatePin (email newPin salt : String)
  deriving DecidableEq, Repr

/-- The collection after one call, whether it returned or threw. -/
def step (B : Bcrypt) (s : Store) (op : Op) : Store :=
  match op with
  | .comparePassword email candidate clock =>
    match findOne s email with
    | none => s
    | some doc => applyEffects s (comparePassword B clock doc candidate).effects
  | .comparePin email candidate clock =>
    match findOne s email with
    | none => s
    | some doc => applyEffects s (comparePin B clock doc candidate).effects
  | .updatePassword email newPassword salt => (updatePassword B salt s email newPassword).1
  | .updatePin email newPin salt => (updatePin B salt s email newPin).1

/-- The collection after a sequence of calls. -/
def run (B : Bcrypt) (s : Store) (ops : List Op) : Store :=
  ops.foldl (step B) s

/-- Both attempt counters of a document lie in {0, 1, 2}. -/
def countersInRange (u : User) : Prop :=
  u.wrong_password_attempts < 3 ∧ u.wrong_pin_attempts < 3

instance (u : User) : Decidable (countersInRange u) := by
  unfold countersInRange
  infer_instance

/-- A toy hashing primitive for evaluating the code on concrete inputs: the
digest is the salt, a colon and the secret. -/
def toyBcrypt : Bcrypt :=
  { hash := fun secret salt => salt ++ ":" ++ secret
    verify := fun secret digest => decide (digest = "salt:" ++ secret) }

/-- A sample account: password "right", PIN "1234", two failures recorded for
each credential, no lockout. -/
def sampleUser : User :=
  { _id := 7
    email := "a@b.co"
    password := some "salt:right"
    name := some "Ann"
    login_pin := some "salt:1234"
    phone_number := none
    wrong_pin_attempts := 2
    blocked_until_pin := none
    wrong_password_attempts := 2
    blocked_until_password := none
    balance := 50000 }

/-- The sample account locked for both credentials until 1801000, with no
failure recorded. -/
def lockedUser : User :=
  { sampleUser with
    wrong_pin_attempts := 0
    blocked_until_pin := some 1801000
    wrong_password_attempts := 0
    blocked_until_password := some 1801000 }

/-- The sample account before any PIN was set. -/
def pinlessUser : User :=
  { sampleUser with login_pin := none, wrong_pin_attempts := 0 }

/-- The refresh token the sample account is issued at instant 1000 under the
sample environment below. -/
def sampleRefreshToken : Token :=
  .signed { userId := some 7, name := some "Ann" } "refresh" 1 604801

/-- A sample sequence of calls: on the account "n@b.co", three wrong
passwords, one more during the lockout, PIN calls while no PIN is set and a
password update; on the account "a@b.co", three wrong PINs, a call with the
right PIN, a PIN update and one more wrong PIN. -/
def sampleOps : List Op :=
  [ .comparePassword "n@b.co" "bad" ⟨10, 11⟩
  , .comparePassword "n@b.co" "bad" ⟨20, 21⟩
  , .comparePassword "n@b.co" "bad" ⟨30, 31⟩
  , .comparePassword "n@b.co" "bad" ⟨40, 41⟩
  , .comparePin "n@b.co" "0000" ⟨50, 51⟩
  , .updatePin "n@b.co" "4321" "salt"
  , .comparePin "n@b.co" "0000" ⟨60, 61⟩
  , .updatePassword "n@b.co" "other" "salt"
  , .comparePassword "n@b.co" "bad" ⟨70, 71⟩
  , .comparePin "a@b.co" "0000" ⟨1900000, 1900001⟩
  , .comparePin "a@b.co" "0000" ⟨1900002, 1900003⟩
  , .comparePin "a@b.co" "0000" ⟨1900004, 1900005⟩
  , .comparePin "a@b.co" "1234" ⟨1900006, 1900007⟩
  , .updatePin "a@b.co" "4321" "salt"
  , .comparePin "a@b.co" "0000" ⟨1900008, 1900009⟩ ]

/-- A sample environment with every variable set. -/
def sampleEnv : Env :=
  { JWT_SECRET := some "access"
    ACCESS_TOKEN_EXPIRY := some 900
    REFRESH_TOKEN_SECRET := some "refresh"
    REFRESH_TOKEN_EXPIRY := some 604800
    SOCKET_TOKEN_SECRET := some "socket"
    SOCKET_TOKEN_EXPIRY := some 900
    REFRESH_SCOKET_TOKEN_SECRET := some "socket-refresh"
    REFRESH_SCOKET_TOKEN_EXPIRY := some 604800
    REFRESH_SOCKET_TOKEN_EXPIRY := some 86400 }

/-! ## Helper lemmas -/

theorem isBlocked_of_not_later (b : Option Nat) (now : Nat)
    (h : ∀ t, b = some t → t ≤ now) : isBlocked b now = false := by
  cases b with
  | none => rfl
  | some t => simpa [isBlocked] using h t rfl

theorem isBlocked_of_later (b : Option Nat) (now t : Nat)
    (h : b = some t) (hlt : now < t) : isBlocked b now = true := by
  subst h
  simpa [isBlocked] using hlt

/-! ## Validation on save -/

theorem validate_kind (doc : User) (e : ApiError) (h : validate doc = some e) :
    e.kind = .ValidationError := by
  unfold validate at h
  split at h
  · cases h
  · cases h
    rfl

/-- Validation reads only the paths that carry a validator. -/
theorem validate_congr (a b : User) (hemail : a.email = b.email) (hname : a.name = b.name)
    (hpin : a.login_pin = b.login_pin) (hphone : a.phone_number = b.phone_number) :
    validate a = validate b := by
  simp only [validate, validationErrors, hemail, hname, hpin, hphone]

/-- A stored PIN longer than four characters, as every digest is, fails the
`maxlength` validator of `login_pin`. -/
theorem validate_of_long_pin (doc : User) (v : String) (hpin : doc.login_pin = some v)
    (hlen : 4 < v.length) : ∃ e, validate doc = some e ∧ e.kind = .ValidationError := by
  have hne : validationErrors doc ≠ [] := by
    simp [validationErrors, hpin, Nat.not_le.mpr hlen]
  cases hv : validate doc with
  | none =>
    unfold validate at hv
    split at hv
    · rename_i hnil
      exact absurd hnil hne
    · cases hv
  | some e => exact ⟨e, rfl, validate_kind doc e hv⟩

theorem saveDoc_of_invalid (s : Store) (doc : User) (e : ApiError)
    (h : validate doc = some e) : saveDoc s doc = s := by
  simp [saveDoc, h]

theorem saveDoc_of_valid (s : Store) (doc : User) (h : validate doc = none) :
    saveDoc s doc = s.map (fun u => if u._id = doc._id then doc else u) := by
  simp [saveDoc, h]

/-! ## The lockout guard -/

/-- Past the guard, `comparePassword` keeps every path but the counter and
the lockout of the password, ends in the result of saving the document as
left, and has called the comparison and `save` once each. -/
theorem comparePassword_open (B : Bcrypt) (clock : CompareClock) (u : User)
    (candidate : String) (isMatch : Bool)
    (hopen : isBlocked u.blocked_until_password clock.guard = false)
    (hcmp : B.compare candidate u.password = .ok isMatch) :
    (comparePassword B clock u candidate).value
      = afterSave (comparePassword B clock u candidate).self isMatch ∧
    (comparePassword B clock u candidate).effects
      = [.bcryptCompare candidate u.password,
         .save (comparePassword B clock u candidate).self] ∧
    validate (comparePassword B clock u candidate).self = validate u := by
  cases isMatch
  · by_cases h3 : u.wrong_password_attempts + 1 ≥ 3
    · simp only [comparePassword, hopen, hcmp, h3]
      exact ⟨rfl, rfl, validate_congr _ _ rfl rfl rfl rfl⟩
    · simp only [comparePassword, hopen, hcmp, h3]
      exact ⟨rfl, rfl, validate_congr _ _ rfl rfl rfl rfl⟩
  · simp only [comparePassword, hopen, hcmp]
    exact ⟨rfl, rfl, validate_congr _ _ rfl rfl rfl rfl⟩

/-- The same for `comparePin`. -/
theorem comparePin_open (B : Bcrypt) (clock : CompareClock) (u : User)
    (candidate : String) (isMatch : Bool)
    (hopen : isBlocked u.blocked_until_pin clock.guard = false)
    (hcmp : B.compare candidate u.login_pin = .ok isMatch) :
    (comparePin B clock u candidate).value
      = afterSave (comparePin B clock u candidate).self isMatch ∧
    (comparePin B clock u candidate).effects
      = [.bcryptCompare candidate u.login_pin,
         .save (comparePin B clock u candidate).self] ∧
    validate (comparePin B clock u candidate).self = validate u := by
  cases isMatch
  · by_cases h3 : u.wrong_pin_attempts + 1 ≥ 3
    · simp only [comparePin, hopen, hcmp, h3]
      exact ⟨rfl, rfl, validate_congr _ _ rfl rfl rfl rfl⟩
    · simp only [comparePin, hopen, hcmp, h3]
      exact ⟨rfl, rfl, validate_congr _ _ rfl rfl rfl rfl⟩
  · simp only [comparePin, hopen, hcmp]
    exact ⟨rfl, rfl, validate_congr _ _ rfl rfl rfl rfl⟩

/-- On a document that passes validation, not actively locked and with two
recorded failures, a mismatching candidate makes `comparePassword` return
false and store `wrong_password_attempts = 0` and `blocked_until_password`
thirty minutes (1,800,000 ms) after the clock reading. -/
theorem comparePassword_third_failure_of_valid (B : Bcrypt) (clock : CompareClock) (u : User)
    (candidate : String) (s : Store)
    (hvalid : validate u = none)
    (hopen : ∀ t, u.blocked_until_password = some t → t ≤ clock.guard)
    (hcount : u.wrong_password_attempts = 2)
    (hcmp : B.compare candidate u.password = .ok false) :
    (comparePassword B clock u candidate).value = .ok false ∧
    (comparePassword B clock u candidate).self
      = { u with wrong_password_attempts := 0,
                 blocked_until_password := some (clock.lock + 1800000) } ∧
    applyEffects s (comparePassword B clock u candidate).effects
      = s.map (fun w => if w._id = u._id then
          { u with wrong_password_attempts := 0,
                   blocked_until_password := some (clock.lock + 1800000) } else w) := by
  have hb := isBlocked_of_not_later _ _ hopen
  obtain ⟨hval, heff, hsame⟩ := comparePassword_open B clock u candidate false hb hcmp
  have hself : (comparePassword B clock u candidate).self
      = { u with wrong_password_attempts := 0,
                 blocked_until_password := some (clock.lock + 1800000) } := by
    simp [comparePassword, hb, hcmp, hcount]
  have hv : validate (comparePassword B clock u candidate).self = none := hsame.trans hvalid
  refine ⟨?_, hself, ?_⟩
  · rw [hval]
    simp [afterSave, hv]
  · rw [heff]
    simp only [applyEffects]
    rw [saveDoc_of_valid _ _ hv, hself]

/-- On an account whose stored PIN is longer than four characters, as every
digest is, `comparePassword` and `comparePin` past the guard throw the
`ValidationError` of `save()` and store nothing, whether the candidate matches
or not. -/
theorem compare_save_rejected (B : Bcrypt) (clock : CompareClock) (u : User)
    (candidate pin : String) (isMatch : Bool) (s : Store)
    (hpin : u.login_pin = some pin) (hlen : 4 < pin.length) :
    (isBlocked u.blocked_until_password clock.guard = false →
      B.compare candidate u.password = .ok isMatch →
        (∃ e, (comparePassword B clock u candidate).value = .error e ∧
          e.kind = .ValidationError) ∧
        applyEffects s (comparePassword B clock u candidate).effects = s) ∧
    (isBlocked u.blocked_until_pin clock.guard = false →
      B.compare candidate u.login_pin = .ok isMatch →
        (∃ e, (comparePin B clock u candidate).value = .error e ∧
          e.kind = .ValidationError) ∧
        applyEffects s (comparePin B clock u candidate).effects = s) := by
  obtain ⟨e, he, hkind⟩ := validate_of_long_pin u pin hpin hlen
  constructor
  · intro hb hcmp
    obtain ⟨hval, heff, hsame⟩ := comparePassword_open B clock u candidate isMatch hb hcmp
    have hv := hsame.trans he
    refine ⟨⟨e, ?_, hkind⟩, ?_⟩
    · rw [hval]
      simp [afterSave, hv]
    · rw [heff]
      simp only [applyEffects]
      exact saveDoc_of_invalid _ _ e hv
  · intro hb hcmp
    obtain ⟨hval, heff, hsame⟩ := comparePin_open B clock u candidate isMatch hb hcmp
    have hv := hsame.trans he
    refine ⟨⟨e, ?_, hkind⟩, ?_⟩
    · rw [hval]
      simp [afterSave, hv]
    · rw [heff]
      simp only [applyEffects]
      exact saveDoc_of_invalid _ _ e hv

/-- C1, evaluated: the sample account has a stored PIN digest, two recorded
failures for each credential and no lockout. A wrong password makes
`comparePassword` throw the `ValidationError` of `save()` instead of returning
false, and a wrong PIN makes `comparePin` do the same; the lockout and the
reset counter exist only on the document in memory, the collection is left as
it was. -/
theorem compare_third_failure_not_stored :
    sampleUser.wrong_password_attempts = 2 ∧
    sampleUser.wrong_pin_attempts = 2 ∧
    isBlocked sampleUser.blocked_until_password 1000 = false ∧
    isBlocked sampleUser.blocked_until_pin 1000 = false ∧
    toyBcrypt.compare "wrong" sampleUser.password = .ok false ∧
    toyBcrypt.compare "0000" sampleUser.login_pin = .ok false ∧
    (∃ e, (comparePassword toyBcrypt ⟨1000, 1002⟩ sampleUser "wrong").value = .error e ∧
      e.kind = .ValidationError) ∧
    (comparePassword toyBcrypt ⟨1000, 1002⟩ sampleUser "wrong").self.blocked_until_password
      = some 1801002 ∧
    applyEffects [sampleUser] (comparePassword toyBcrypt ⟨1000, 1002⟩ sampleUser "wrong").effects
      = [sampleUser] ∧
    (∃ e, (comparePin toyBcrypt ⟨1000, 1002⟩ sampleUser "0000").value = .error e ∧
      e.kind = .ValidationError) ∧
    (comparePin toyBcrypt ⟨1000, 1002⟩ sampleUser "0000").self.blocked_until_pin
      = some 1801002 ∧
    applyEffects [sampleUser] (comparePin toyBcrypt ⟨1000, 1002⟩ sampleUser "0000").effects
      = [sampleUser] :=
  ⟨rfl, rfl, rfl, rfl, rfl, rfl, ⟨_, rfl, rfl⟩, rfl, rfl, ⟨_, rfl, rfl⟩, rfl, rfl⟩

/-- C2: on an account whose `blocked_until_password` is strictly later than
the clock reading, `comparePassword` throws whatever the candidate, makes no
call to the comparison and no save, and leaves the document as it was;
`comparePin` does the same on `blocked_until_pin`. -/
theorem compare_blocked_rejects (B : Bcrypt) (clock : CompareClock) (u : User)
    (candidate : String) (t : Nat) :
    (u.blocked_until_password = some t → clock.guard < t →
        (comparePassword B clock u candidate).value
          = .error ⟨.UnauthenticateError,
              "Invalid login attempts exceeded. Please try after 30 minutes."⟩ ∧
        (comparePassword B clock u candidate).effects = [] ∧
        (comparePassword B clock u candidate).self = u) ∧
    (u.blocked_until_pin = some t → clock.guard < t →
        (comparePin B clock u candidate).value
          = .error ⟨.UnauthenticateError,
              "Invalid PIN attempts exceeded. Please try after 30 minutes."⟩ ∧
        (comparePin B clock u candidate).effects = [] ∧
        (comparePin B clock u candidate).self = u) := by
  constructor
  · intro hb hlt
    have h := isBlocked_of_later _ _ _ hb hlt
    simp [comparePassword, h]
  · intro hb hlt
    have h := isBlocked_of_later _ _ _ hb hlt
    simp [comparePin, h]

theorem compare_blocked_rejects_witness :
    ((comparePassword toyBcrypt ⟨2000, 2000⟩ lockedUser "right").value
        = .error ⟨.UnauthenticateError,
            "Invalid login attempts exceeded. Please try after 30 minutes."⟩ ∧
      (comparePassword toyBcrypt ⟨2000, 2000⟩ lockedUser "right").effects = [] ∧
      (comparePassword toyBcrypt ⟨2000, 2000⟩ lockedUser "right").self = lockedUser) ∧
    ((comparePin toyBcrypt ⟨2000, 2000⟩ lockedUser "1234").value
        = .error ⟨.UnauthenticateError,
            "Invalid PIN attempts exceeded. Please try after 30 minutes."⟩ ∧
      (comparePin toyBcrypt ⟨2000, 2000⟩ lockedUser "1234").effects = [] ∧
      (comparePin toyBcrypt ⟨2000, 2000⟩ lockedUser "1234").self = lockedUser) :=
  ⟨(compare_blocked_rejects toyBcrypt ⟨2000, 2000⟩ lockedUser "right" 1801000).1 rfl
      (by decide),
   (compare_blocked_rejects toyBcrypt ⟨2000, 2000⟩ lockedUser "1234" 1801000).2 rfl
      (by decide)⟩

/-- On a document that passes validation and is not actively locked, a
matching candidate makes `comparePassword` return true and store
`wrong_password_attempts = 0` and `blocked_until_password = null`. -/
theorem comparePassword_success_of_valid (B : Bcrypt) (clock : CompareClock) (u : User)
    (candidate : String) (s : Store)
    (hvalid : validate u = none)
    (hopen : ∀ t, u.blocked_until_password = some t → t ≤ clock.guard)
    (hcmp : B.compare candidate u.password = .ok true) :
    (comparePassword B clock u candidate).value = .ok true ∧
    (comparePassword B clock u candidate).self
      = { u with wrong_password_attempts := 0, blocked_until_password := none } ∧
    applyEffects s (comparePassword B clock u candidate).effects
      = s.map (fun w => if w._id = u._id then
          { u with wrong_password_attempts := 0, blocked_until_password := none } else w) := by
  have hb := isBlocked_of_not_later _ _ hopen
  obtain ⟨hval, heff, hsame⟩ := comparePassword_open B clock u candidate true hb hcmp
  have hself : (comparePassword B clock u candidate).self
      = { u with wrong_password_attempts := 0, blocked_until_password := none } := by
    simp [comparePassword, hb, hcmp]
  have hv : validate (comparePassword B clock u candidate).self = none := hsame.trans hvalid
  refine ⟨?_, hself, ?_⟩
  · rw [hval]
    simp [afterSave, hv]
  · rw [heff]
    simp only [applyEffects]
    rw [saveDoc_of_valid _ _ hv, hself]

/-- C3, evaluated: on the sample account, which has a stored PIN digest and no
lockout, the correct password makes `comparePassword` throw the
`ValidationError` of `save()` instead of returning true, and the correct PIN
makes `comparePin` do the same; the counters stored stay at 2. -/
theorem compare_success_not_stored :
    isBlocked sampleUser.blocked_until_password 1000 = false ∧
    isBlocked sampleUser.blocked_until_pin 1000 = false ∧
    toyBcrypt.compare "right" sampleUser.password = .ok true ∧
    toyBcrypt.compare "1234" sampleUser.login_pin = .ok true ∧
    (∃ e, (comparePassword toyBcrypt ⟨1000, 1002⟩ sampleUser "right").value = .error e ∧
      e.kind = .ValidationError) ∧
    applyEffects [sampleUser] (comparePassword toyBcrypt ⟨1000, 1002⟩ sampleUser "right").effects
      = [sampleUser] ∧
    (∃ e, (comparePin toyBcrypt ⟨1000, 1002⟩ sampleUser "1234").value = .error e ∧
      e.kind = .ValidationError) ∧
    applyEffects [sampleUser] (comparePin toyBcrypt ⟨1000, 1002⟩ sampleUser "1234").effects
      = [sampleUser] :=
  ⟨rfl, rfl, rfl, rfl, ⟨_, rfl, rfl⟩, rfl, ⟨_, rfl, rfl⟩, rfl⟩

/-! ## Login -/

/-- C4, as stated, fails: on the account without a PIN, with two recorded
failures and no lockout, a wrong password is answered with the blocked message
and not with the "Invalid login attempts exceeded" message. -/
theorem login_lock_call_not_exceeded :
    pinlessUser.wrong_password_attempts = 2 ∧
    isBlocked pinlessUser.blocked_until_password 1000 = false ∧
    toyBcrypt.compare "wrong" pinlessUser.password = .ok false ∧
    (login toyBcrypt sampleEnv ⟨⟨1000, 1000⟩, 1000, 1000, 1000, 1000⟩ [pinlessUser]
        ⟨some "a@b.co", some "wrong"⟩).2
      = .error ⟨.UnauthenticateError,
          "Your account is blocked for password. Please try again after 30 minutes."⟩ ∧
    (login toyBcrypt sampleEnv ⟨⟨1000, 1000⟩, 1000, 1000, 1000, 1000⟩ [pinlessUser]
        ⟨some "a@b.co", some "wrong"⟩).2
      ≠ .error ⟨.UnauthenticateError,
          "Invalid login attempts exceeded. Please try after 30 minutes."⟩ := by
  refine ⟨rfl, rfl, rfl, rfl, ?_⟩
  have h : (login toyBcrypt sampleEnv ⟨⟨1000, 1000⟩, 1000, 1000, 1000, 1000⟩ [pinlessUser]
        ⟨some "a@b.co", some "wrong"⟩).2
      = .error ⟨.UnauthenticateError,
          "Your account is blocked for password. Please try again after 30 minutes."⟩ := rfl
  rw [h]
  intro hne
  injection hne with hne
  injection hne with _ hmsg
  revert hmsg
  decide

/-- C4, amended: on an account whose document passes the validation of
`save()`, with two recorded failures and no active lockout, a login with a
wrong password is answered on that very call with the blocked message, whose
minutes are the ceiling of (lockout just set − clock reading) / 60000, as long
as the lockout just set is still ahead when `login` tests it; the message
reads 30 minutes when the clock has not moved since the lockout was set. -/
theorem login_lock_call_reports_blocked (B : Bcrypt) (env : Env) (clock : LoginClock)
    (s : Store) (email password : String) (doc : User)
    (hemail : email ≠ "") (hpassword : password ≠ "")
    (hfind : findOne s email = some doc)
    (hvalid : validate doc = none)
    (hopen : ∀ t, doc.blocked_until_password = some t → t ≤ clock.compare.guard)
    (hcount : doc.wrong_password_attempts = 2)
    (hcmp : B.compare password doc.password = .ok false)
    (hahead : clock.check < clock.compare.lock + 1800000) :
    (login B env clock s ⟨some email, some password⟩).2
      = .error ⟨.UnauthenticateError,
          "Your account is blocked for password. Please try again after "
            ++ toString (ceilDiv (((clock.compare.lock + 1800000 : Nat) : Int)
                  - (clock.remaining : Int)) 60000)
            ++ " minutes."⟩ ∧
    (clock.remaining = clock.compare.lock →
      (login B env clock s ⟨some email, some password⟩).2
        = .error ⟨.UnauthenticateError,
            "Your account is blocked for password. Please try again after 30 minutes."⟩) := by
  have hmain : (login B env clock s ⟨some email, some password⟩).2
      = .error ⟨.UnauthenticateError,
          "Your account is blocked for password. Please try again after "
            ++ toString (ceilDiv (((clock.compare.lock + 1800000 : Nat) : Int)
                  - (clock.remaining : Int)) 60000)
            ++ " minutes."⟩ := by
    obtain ⟨hval, hself, _⟩ := comparePassword_third_failure_of_valid B clock.compare doc
      password s hvalid hopen hcount hcmp
    simp [login, hemail, hpassword, hfind, hval, hself, loginFailureMessage, hahead]
  refine ⟨hmain, ?_⟩
  intro hsame
  rw [hmain, hsame]
  have h30 : ceilDiv (((clock.compare.lock + 1800000 : Nat) : Int)
      - (clock.compare.lock : Int)) 60000 = 30 := by
    have : (((clock.compare.lock + 1800000 : Nat) : Int) - (clock.compare.lock : Int))
        = 1800000 := by push_cast; ring
    rw [this]; rfl
  rw [h30]
  rfl

theorem login_lock_call_reports_blocked_witness :
    (login toyBcrypt sampleEnv ⟨⟨1000, 1002⟩, 1003, 70000, 0, 0⟩ [pinlessUser]
        ⟨some "a@b.co", some "wrong"⟩).2
      = .error ⟨.UnauthenticateError,
          "Your account is blocked for password. Please try again after "
            ++ toString (ceilDiv ((((1002 : Nat) + 1800000 : Nat) : Int)
                  - ((70000 : Nat) : Int)) 60000)
            ++ " minutes."⟩ :=
  (login_lock_call_reports_blocked toyBcrypt sampleEnv ⟨⟨1000, 1002⟩, 1003, 70000, 0, 0⟩
    [pinlessUser] "a@b.co" "wrong" pinlessUser (by decide) (by decide) rfl rfl
    (by intro t h; cases h) rfl rfl (by decide)).1

/-- C5, evaluated: the account locked until 1801000 logs in at 1741000, one
minute (ceil (60000 / 60000) = 1) before the lockout ends, with its correct
password; `login` throws the fixed "after 30 minutes" message of
`comparePassword`, with no remaining-minutes figure, and leaves the
collection as it was. -/
theorem login_locked_account_fixed_message :
    isBlocked lockedUser.blocked_until_password 1741000 = true ∧
    ceilDiv ((1801000 : Int) - 1741000) (1000 * 60) = 1 ∧
    login toyBcrypt sampleEnv ⟨⟨1741000, 1741000⟩, 1741000, 1741000, 1741000, 1741000⟩
        [lockedUser] ⟨some "a@b.co", some "right"⟩
      = ([lockedUser], .error ⟨.UnauthenticateError,
          "Invalid login attempts exceeded. Please try after 30 minutes."⟩) :=
  ⟨rfl, rfl, rfl⟩

/-! ## Token refresh -/

/-- Whenever `refreshToken` answers, the answer has no `access_token`: the
object returned by `generateRefreshTokens` has no key `accessToken`. -/
theorem refreshToken_answer_lacks_access_token (env : Env) (clock : RefreshClock) (s : Store)
    (body : RefreshBody) (r : RefreshResponse)
    (h : refreshToken env clock s body = .ok r) : r.access_token = none := by
  have hgen : ∀ (tok : Token) (rs : Option String) (re : Option Nat) (as : Option String)
      (ae : Option Nat) (obj : TokenObject),
      generateRefreshTokens clock s tok rs re as ae = .ok obj →
        obj.lookup "accessToken" = none := by
    intro tok rs re as ae obj hobj
    unfold generateRefreshTokens at hobj
    simp only at hobj
    split at hobj
    · cases hobj
    · rename_i obj2 hbody
      cases hobj
      split at hbody
      · cases hbody
      · split at hbody
        · cases hbody
        · split at hbody
          · cases hbody
          · split at hbody
            · cases hbody
            · cases hbody
              rfl
  unfold refreshToken at h
  split at h
  · split at h
    · cases h
    · simp only at h
      split at h
      · cases h
      · rename_i obj hobj
        cases h
        simp only
        split at hobj
        · exact hgen _ _ _ _ _ _ hobj
        · split at hobj
          · exact hgen _ _ _ _ _ _ hobj
          · cases hobj
            rfl
  · cases h

/-- C6, evaluated: the sample account is issued its refresh token at instant
1000 and presents it, unexpired, with type "app" at instant 2000. The call
succeeds and rotates the refresh token for the same userId, but the answer
carries no `access_token`. -/
theorem refreshToken_roundtrip_drops_access_token :
    findById [sampleUser] (some 7) = some sampleUser ∧
    createRefreshToken sampleEnv 1000 sampleUser = .ok sampleRefreshToken ∧
    jwtVerify sampleRefreshToken sampleEnv.REFRESH_TOKEN_SECRET 2000
      = .ok { userId := some 7, name := some "Ann" } ∧
    refreshToken sampleEnv ⟨2000, 2000, 2000⟩ [sampleUser]
        ⟨some "app", some sampleRefreshToken⟩
      = .ok { status := 200
              access_token := none
              refresh_token :=
                some (.signed { userId := some 7, name := none } "refresh" 2 86402) } :=
  ⟨rfl, rfl, rfl, rfl⟩

/-- C7: for a recognised type and a non-empty refresh token, when verification
under that type's refresh secret fails, or it succeeds but no account has the
token's userId, `refreshToken` throws `UnauthenticateError` with the message
"Invalid token", the same error in both cases. -/
theorem refreshToken_failure_is_invalid_token (env : Env) (clock : RefreshClock) (s : Store)
    (type : String) (token : Token)
    (htype : type = "app" ∨ type = "socket")
    (htoken : token ≠ .malformed "")
    (hfail :
      (∃ e, jwtVerify token
          (if type = "socket" then env.REFRESH_SCOKET_TOKEN_SECRET
            else env.REFRESH_TOKEN_SECRET) clock.verify = .error e) ∨
      (∃ payload, jwtVerify token
          (if type = "socket" then env.REFRESH_SCOKET_TOKEN_SECRET
            else env.REFRESH_TOKEN_SECRET) clock.verify = .ok payload ∧
        findById s payload.userId = none)) :
    refreshToken env clock s ⟨some type, some token⟩
      = .error ⟨.UnauthenticateError, "Invalid token"⟩ := by
  have hgen : ∀ (rs : Option String) (re : Option Nat) (as : Option String) (ae : Option Nat),
      ((∃ e, jwtVerify token rs clock.verify = .error e) ∨
        (∃ payload, jwtVerify token rs clock.verify = .ok payload ∧
          findById s payload.userId = none)) →
      generateRefreshTokens clock s token rs re as ae
        = .error ⟨.UnauthenticateError, "Invalid refresh token"⟩ := by
    intro rs re as ae hf
    rcases hf with ⟨e, he⟩ | ⟨payload, hp, hnone⟩
    · simp [generateRefreshTokens, he]
    · simp [generateRefreshTokens, hp, hnone]
  rcases htype with rfl | rfl
  · have hg := hgen env.REFRESH_TOKEN_SECRET env.REFRESH_SOCKET_TOKEN_EXPIRY env.JWT_SECRET
      env.ACCESS_TOKEN_EXPIRY (by simpa using hfail)
    simp [refreshToken, htoken, hg]
  · have hg := hgen env.REFRESH_SCOKET_TOKEN_SECRET env.REFRESH_SCOKET_TOKEN_EXPIRY
      env.SOCKET_TOKEN_SECRET env.SOCKET_TOKEN_EXPIRY (by simpa using hfail)
    simp [refreshToken, htoken, hg]

theorem refreshToken_failure_is_invalid_token_witness :
    refreshToken sampleEnv ⟨2000, 2000, 2000⟩ [sampleUser]
        ⟨some "socket", some sampleRefreshToken⟩
      = .error ⟨.UnauthenticateError, "Invalid token"⟩ :=
  refreshToken_failure_is_invalid_token sampleEnv ⟨2000, 2000, 2000⟩ [sampleUser] "socket"
    sampleRefreshToken (Or.inr rfl) (by decide)
    (Or.inl ⟨⟨.Error, "invalid signature"⟩, rfl⟩)

/-! ## Credential update -/

theorem findOne_findOneAndUpdate (s : Store) (email : String) (update : User → User)
    (hkeep : ∀ u, (update u).email = u.email) :
    findOne (findOneAndUpdate s email update) email = (findOne s email).map update := by
  induction s with
  | nil => rfl
  | cons u rest ih =>
    unfold findOneAndUpdate
    by_cases h : u.email = email
    · simp [findOne, h, hkeep]
    · have ih2 : List.find? (fun u => decide (u.email = email))
          (findOneAndUpdate rest email update)
          = Option.map update (List.find? (fun u => decide (u.email = email)) rest) := ih
      simp [findOne, h, ih2]

/-- C8: for an existing account, when the new value matches the stored digest
of the credential, `updatePassword` (respectively `updatePin`) throws the
same-as-old `BadRequestError` and the collection is left exactly as it was. -/
theorem update_same_secret_rejected (B : Bcrypt) (salt : String) (s : Store)
    (email newValue : String) (u : User) :
    (findOne s email = some u → B.compare newValue u.password = .ok true →
      updatePassword B salt s email newValue
        = (s, .error ⟨.BadRequestError,
            "New password cannot be the same as the old password"⟩)) ∧
    (findOne s email = some u → B.compare newValue u.login_pin = .ok true →
      updatePin B salt s email newValue
        = (s, .error ⟨.BadRequestError, "New PIN cannot be the same as the old PIN"⟩)) := by
  constructor
  · intro hfind hcmp
    simp [updatePassword, hfind, hcmp]
  · intro hfind hcmp
    simp [updatePin, hfind, hcmp]

theorem update_same_secret_rejected_witness :
    updatePassword toyBcrypt "salt" [lockedUser] "a@b.co" "right"
        = ([lockedUser], .error ⟨.BadRequestError,
            "New password cannot be the same as the old password"⟩) ∧
    updatePin toyBcrypt "salt" [lockedUser] "a@b.co" "1234"
        = ([lockedUser], .error ⟨.BadRequestError,
            "New PIN cannot be the same as the old PIN"⟩) :=
  ⟨(update_same_secret_rejected toyBcrypt "salt" [lockedUser] "a@b.co" "right" lockedUser).1
      rfl rfl,
   (update_same_secret_rejected toyBcrypt "salt" [lockedUser] "a@b.co" "1234" lockedUser).2
      rfl rfl⟩

/-- C9: for an existing account, when the new value does not match the stored
digest, `updatePassword` succeeds and the stored account has a digest of the
new value, `wrong_password_attempts = 0` and `blocked_until_password = null`,
every other path as before (so `login_pin`, `wrong_pin_attempts` and
`blocked_until_pin` are unchanged); `updatePin` does the same on the PIN
paths and leaves the password paths unchanged. -/
theorem update_new_secret_resets_own_state (B : Bcrypt) (salt : String) (s : Store)
    (email newValue : String) (u : User) :
    (findOne s email = some u → B.compare newValue u.password = .ok false →
      (updatePassword B salt s email newValue).2
        = .ok { success := true, message := "Password updated successfully" } ∧
      ∃ v, findOne (updatePassword B salt s email newValue).1 email = some v ∧
        v = { u with password := some (B.hash newValue salt), wrong_password_attempts := 0,
                     blocked_until_password := none } ∧
        v.password = some (B.hash newValue salt) ∧
        v.wrong_password_attempts = 0 ∧ v.blocked_until_password = none ∧
        v.login_pin = u.login_pin ∧ v.wrong_pin_attempts = u.wrong_pin_attempts ∧
        v.blocked_until_pin = u.blocked_until_pin) ∧
    (findOne s email = some u → B.compare newValue u.login_pin = .ok false →
      (updatePin B salt s email newValue).2
        = .ok { success := true, message := "PIN updated successfully" } ∧
      ∃ v, findOne (updatePin B salt s email newValue).1 email = some v ∧
        v = { u with login_pin := some (B.hash newValue salt), wrong_pin_attempts := 0,
                     blocked_until_pin := none } ∧
        v.login_pin = some (B.hash newValue salt) ∧
        v.wrong_pin_attempts = 0 ∧ v.blocked_until_pin = none ∧
        v.password = u.password ∧ v.wrong_password_attempts = u.wrong_password_attempts ∧
        v.blocked_until_password = u.blocked_until_password) := by
  constructor
  · intro hfind hcmp
    have hstore : (updatePassword B salt s email newValue).1
        = findOneAndUpdate s email (fun w =>
            { w with password := some (B.hash newValue salt), wrong_password_attempts := 0,
                     blocked_until_password := none }) := by
      simp [updatePassword, hfind, hcmp]
    refine ⟨by simp [updatePassword, hfind, hcmp], _, ?_, rfl, rfl, rfl, rfl, rfl, rfl, rfl⟩
    rw [hstore, findOne_findOneAndUpdate, hfind]
    · rfl
    · intro w
      rfl
  · intro hfind hcmp
    have hstore : (updatePin B salt s email newValue).1
        = findOneAndUpdate s email (fun w =>
            { w with login_pin := some (B.hash newValue salt), wrong_pin_attempts := 0,
                     blocked_until_pin := none }) := by
      simp [updatePin, hfind, hcmp]
    refine ⟨by simp [updatePin, hfind, hcmp], _, ?_, rfl, rfl, rfl, rfl, rfl, rfl, rfl⟩
    rw [hstore, findOne_findOneAndUpdate, hfind]
    · rfl
    · intro w
      rfl

theorem update_new_secret_resets_own_state_witness :
    ((updatePassword toyBcrypt "salt" [lockedUser] "a@b.co" "fresh").2
        = .ok { success := true, message := "Password updated successfully" } ∧
      ∃ v, findOne (updatePassword toyBcrypt "salt" [lockedUser] "a@b.co" "fresh").1 "a@b.co"
          = some v ∧
        v = { lockedUser with password := some (toyBcrypt.hash "fresh" "salt"),
                              wrong_password_attempts := 0,
                              blocked_until_password := none } ∧
        v.password = some (toyBcrypt.hash "fresh" "salt") ∧
        v.wrong_password_attempts = 0 ∧ v.blocked_until_password = none ∧
        v.login_pin = lockedUser.login_pin ∧
        v.wrong_pin_attempts = lockedUser.wrong_pin_attempts ∧
        v.blocked_until_pin = lockedUser.blocked_until_pin) ∧
    ((updatePin toyBcrypt "salt" [lockedUser] "a@b.co" "9999").2
        = .ok { success := true, message := "PIN updated successfully" } ∧
      ∃ v, findOne (updatePin toyBcrypt "salt" [lockedUser] "a@b.co" "9999").1 "a@b.co"
          = some v ∧
        v = { lockedUser with login_pin := some (toyBcrypt.hash "9999" "salt"),
                              wrong_pin_attempts := 0,
                              blocked_until_pin := none } ∧
        v.login_pin = some (toyBcrypt.hash "9999" "salt") ∧
        v.wrong_pin_attempts = 0 ∧ v.blocked_until_pin = none ∧
        v.password = lockedUser.password ∧
        v.wrong_password_attempts = lockedUser.wrong_password_attempts ∧
        v.blocked_until_password = lockedUser.blocked_until_password) :=
  ⟨(update_new_secret_resets_own_state toyBcrypt "salt" [lockedUser] "a@b.co" "fresh"
      lockedUser).1 rfl rfl,
   (update_new_secret_resets_own_state toyBcrypt "salt" [lockedUser] "a@b.co" "9999"
      lockedUser).2 rfl rfl⟩

/-! ## The counter invariant -/

theorem saveDoc_map_id (s : Store) (doc : User) :
    (saveDoc s doc).map User._id = s.map User._id := by
  cases hv : validate doc with
  | some e => rw [saveDoc_of_invalid s doc e hv]
  | none =>
    rw [saveDoc_of_valid s doc hv]
    induction s with
    | nil => rfl
    | cons v rest ih =>
      by_cases h : v._id = doc._id
      · simp [h, ih]
      · simp [h, ih]

theorem saveDoc_map_email (s : Store) (doc : User)
    (h : ∀ v ∈ s, v._id = doc._id → v.email = doc.email) :
    (saveDoc s doc).map User.email = s.map User.email := by
  cases hv : validate doc with
  | some e => rw [saveDoc_of_invalid s doc e hv]
  | none =>
    rw [saveDoc_of_valid s doc hv]
    induction s with
    | nil => rfl
    | cons v rest ih =>
      have ih2 := ih (fun w hw => h w (List.mem_cons_of_mem _ hw))
      by_cases hvid : v._id = doc._id
      · have := h v (List.mem_cons_self _ _) hvid
        simp [hvid, ih2, this]
      · simp [hvid, ih2]

theorem saveDoc_countersInRange (s : Store) (doc : User) (hdoc : countersInRange doc)
    (hs : ∀ v ∈ s, countersInRange v) : ∀ v ∈ saveDoc s doc, countersInRange v := by
  cases hv : validate doc with
  | some e =>
    rw [saveDoc_of_invalid s doc e hv]
    exact hs
  | none =>
    rw [saveDoc_of_valid s doc hv]
    intro v hmem
    simp only [List.mem_map] at hmem
    obtain ⟨w, hw, rfl⟩ := hmem
    by_cases h : w._id = doc._id
    · simpa [h] using hdoc
    · simpa [h] using hs w hw

theorem findOneAndUpdate_map (s : Store) (email : String) (update : User → User)
    (hid : ∀ u, (update u)._id = u._id) (hemail : ∀ u, (update u).email = u.email) :
    (findOneAndUpdate s email update).map User._id = s.map User._id ∧
    (findOneAndUpdate s email update).map User.email = s.map User.email := by
  induction s with
  | nil => exact ⟨rfl, rfl⟩
  | cons v rest ih =>
    unfold findOneAndUpdate
    by_cases h : v.email = email
    · simp [h, hid, hemail]
    · simp [h, ih.1, ih.2]

theorem findOneAndUpdate_countersInRange (s : Store) (email : String) (update : User → User)
    (hupd : ∀ u, countersInRange u → countersInRange (update u))
    (hs : ∀ v ∈ s, countersInRange v) :
    ∀ v ∈ findOneAndUpdate s email update, countersInRange v := by
  induction s with
  | nil => intro v hv; cases hv
  | cons w rest ih =>
    intro v hv
    unfold findOneAndUpdate at hv
    by_cases h : w.email = email
    · simp only [h, if_true, List.mem_cons] at hv
      rcases hv with rfl | hv
      · exact hupd w (hs w (List.mem_cons_self _ _))
      · exact hs v (List.mem_cons_of_mem _ hv)
    · simp only [h, if_false, List.mem_cons] at hv
      rcases hv with rfl | hv
      · exact hs _ (List.mem_cons_self _ _)
      · exact ih (fun x hx => hs x (List.mem_cons_of_mem _ hx)) v hv

theorem findOne_mem (s : Store) (email : String) (u : User) (h : findOne s email = some u) :
    u ∈ s :=
  List.mem_of_find?_eq_some h

/-- What `comparePassword` leaves: identity and email of the document are
kept, counters in range stay in range, and the collaborator calls contain at
most one save, of the document as left. -/
theorem comparePassword_frame (B : Bcrypt) (clock : CompareClock) (u : User) (c : String) :
    (comparePassword B clock u c).self._id = u._id ∧
    (comparePassword B clock u c).self.email = u.email ∧
    (countersInRange u → countersInRange (comparePassword B clock u c).self) ∧
    (∀ s, applyEffects s (comparePassword B clock u c).effects = s ∨
      applyEffects s (comparePassword B clock u c).effects
        = saveDoc s (comparePassword B clock u c).self) := by
  unfold comparePassword
  split
  · exact ⟨rfl, rfl, id, fun s => Or.inl rfl⟩
  · split
    · exact ⟨rfl, rfl, id, fun s => Or.inl rfl⟩
    · rename_i isMatch _
      cases isMatch
      · by_cases h3 : u.wrong_password_attempts + 1 ≥ 3
        · refine ⟨by simp [h3], by simp [h3], ?_, fun s => Or.inr (by simp [h3, applyEffects])⟩
          intro hu
          simp [h3, countersInRange, hu.2]
        · refine ⟨by simp [h3], by simp [h3], ?_, fun s => Or.inr (by simp [h3, applyEffects])⟩
          intro hu
          have : u.wrong_password_attempts + 1 < 3 := by omega
          simp [h3, countersInRange, hu.2, this]
      · refine ⟨rfl, rfl, ?_, fun s => Or.inr (by simp [applyEffects])⟩
        intro hu
        simp [countersInRange, hu.2]

/-- The same for `comparePin`. -/
theorem comparePin_frame (B : Bcrypt) (clock : CompareClock) (u : User) (c : String) :
    (comparePin B clock u c).self._id = u._id ∧
    (comparePin B clock u c).self.email = u.email ∧
    (countersInRange u → countersInRange (comparePin B clock u c).self) ∧
    (∀ s, applyEffects s (comparePin B clock u c).effects = s ∨
      applyEffects s (comparePin B clock u c).effects
        = saveDoc s (comparePin B clock u c).self) := by
  unfold comparePin
  split
  · exact ⟨rfl, rfl, id, fun s => Or.inl rfl⟩
  · simp only
    split
    · exact ⟨rfl, rfl, id, fun s => Or.inl rfl⟩
    · rename_i isMatch _
      cases isMatch
      · by_cases h3 : u.wrong_pin_attempts + 1 ≥ 3
        · refine ⟨by simp [h3], by simp [h3], ?_, fun s => Or.inr (by simp [h3, applyEffects])⟩
          intro hu
          simp [h3, countersInRange, hu.1]
        · refine ⟨by simp [h3], by simp [h3], ?_, fun s => Or.inr (by simp [h3, applyEffects])⟩
          intro hu
          have : u.wrong_pin_attempts + 1 < 3 := by omega
          simp [h3, countersInRange, hu.1, this]
      · refine ⟨rfl, rfl, ?_, fun s => Or.inr (by simp [applyEffects])⟩
        intro hu
        simp [countersInRange, hu.1]

theorem updatePassword_store (B : Bcrypt) (salt : String) (s : Store)
    (email newPassword : String) :
    (updatePassword B salt s email newPassword).1 = s ∨
    (updatePassword B salt s email newPassword).1
      = findOneAndUpdate s email (fun u =>
          { u with password := some (B.hash newPassword salt), wrong_password_attempts := 0,
                   blocked_until_password := none }) := by
  unfold updatePassword
  split
  · exact Or.inl rfl
  · split
    · exact Or.inl rfl
    · split
      · exact Or.inl rfl
      · exact Or.inr rfl

theorem updatePin_store (B : Bcrypt) (salt : String) (s : Store) (email newPin : String) :
    (updatePin B salt s email newPin).1 = s ∨
    (updatePin B salt s email newPin).1
      = findOneAndUpdate s email (fun u =>
          { u with login_pin := some (B.hash newPin salt), wrong_pin_attempts := 0,
                   blocked_until_pin := none }) := by
  unfold updatePin
  split
  · exact Or.inl rfl
  · split
    · exact Or.inl rfl
    · split
      · exact Or.inl rfl
      · exact Or.inr rfl

/-- Saving a loaded document whose identity and email were kept preserves the
identities and emails of the collection and the range of the counters. -/
theorem save_loaded_invariant (s : Store) (email : String) (doc doc2 : User)
    (hnodup : (s.map User._id).Nodup) (hs : ∀ v ∈ s, countersInRange v)
    (hfind : findOne s email = some doc)
    (hid : doc2._id = doc._id) (hemail : doc2.email = doc.email)
    (hok : countersInRange doc → countersInRange doc2) :
    (saveDoc s doc2).map User._id = s.map User._id ∧
    (saveDoc s doc2).map User.email = s.map User.email ∧
    ∀ v ∈ saveDoc s doc2, countersInRange v := by
  have hmem := findOne_mem s email doc hfind
  refine ⟨saveDoc_map_id s doc2, saveDoc_map_email s doc2 ?_,
    saveDoc_countersInRange s doc2 (hok (hs doc hmem)) hs⟩
  intro v hv hvid
  have : v = doc := List.inj_on_of_nodup_map hnodup hv hmem (hvid.trans hid)
  rw [this, hemail]

/-- One call keeps the identities and emails of the collection and the range
of every counter. -/
theorem step_invariant (B : Bcrypt) (s : Store) (op : Op)
    (hnodup : (s.map User._id).Nodup) (hs : ∀ v ∈ s, countersInRange v) :
    (step B s op).map User._id = s.map User._id ∧
    (step B s op).map User.email = s.map User.email ∧
    ∀ v ∈ step B s op, countersInRange v := by
  cases op with
  | comparePassword email candidate clock =>
    unfold step
    simp only
    cases hfind : findOne s email with
    | none => exact ⟨rfl, rfl, hs⟩
    | some doc =>
      obtain ⟨hid, hemail, hok, heff⟩ := comparePassword_frame B clock doc candidate
      simp only
      rcases heff s with h | h
      · rw [h]; exact ⟨rfl, rfl, hs⟩
      · rw [h]; exact save_loaded_invariant s email doc _ hnodup hs hfind hid hemail hok
  | comparePin email candidate clock =>
    unfold step
    simp only
    cases hfind : findOne s email with
    | none => exact ⟨rfl, rfl, hs⟩
    | some doc =>
      obtain ⟨hid, hemail, hok, heff⟩ := comparePin_frame B clock doc candidate
      simp only
      rcases heff s with h | h
      · rw [h]; exact ⟨rfl, rfl, hs⟩
      · rw [h]; exact save_loaded_invariant s email doc _ hnodup hs hfind hid hemail hok
  | updatePassword email newPassword salt =>
    unfold step
    simp only
    rcases updatePassword_store B salt s email newPassword with h | h
    · rw [h]; exact ⟨rfl, rfl, hs⟩
    · rw [h]
      have hm := findOneAndUpdate_map s email (fun u =>
          { u with password := some (B.hash newPassword salt), wrong_password_attempts := 0,
                   blocked_until_password := none }) (fun _ => rfl) (fun _ => rfl)
      refine ⟨hm.1, hm.2, findOneAndUpdate_countersInRange s email _ ?_ hs⟩
      intro u hu
      exact ⟨Nat.zero_lt_succ 2, hu.2⟩
  | updatePin email newPin salt =>
    unfold step
    simp only
    rcases updatePin_store B salt s email newPin with h | h
    · rw [h]; exact ⟨rfl, rfl, hs⟩
    · rw [h]
      have hm := findOneAndUpdate_map s email (fun u =>
          { u with login_pin := some (B.hash newPin salt), wrong_pin_attempts := 0,
                   blocked_until_pin := none }) (fun _ => rfl) (fun _ => rfl)
      refine ⟨hm.1, hm.2, findOneAndUpdate_countersInRange s email _ ?_ hs⟩
      intro u hu
      exact ⟨hu.1, Nat.zero_lt_succ 2⟩

/-- Any sequence of calls keeps the identities and emails of the collection
and the range of every counter. -/
theorem run_invariant (B : Bcrypt) (ops : List Op) (s : Store)
    (hnodup : (s.map User._id).Nodup) (hs : ∀ v ∈ s, countersInRange v) :
    (run B s ops).map User._id = s.map User._id ∧
    (run B s ops).map User.email = s.map User.email ∧
    ∀ v ∈ run B s ops, countersInRange v := by
  induction ops generalizing s with
  | nil => exact ⟨rfl, rfl, hs⟩
  | cons op rest ih =>
    obtain ⟨h1, h2, h3⟩ := step_invariant B s op hnodup hs
    have hn : ((step B s op).map User._id).Nodup := by rw [h1]; exact hnodup
    obtain ⟨k1, k2, k3⟩ := ih (step B s op) hn h3
    exact ⟨k1.trans h1, k2.trans h2, k3⟩

/-- C10: in a collection with distinct identities whose counters are in range,
an account is newly created (both counters 0 by schema default); after every
finite sequence of `comparePassword`, `comparePin`, `updatePassword` and
`updatePin` calls, with any candidates and clock readings, the account is
still found by its email and both of its persisted counters lie in {0, 1, 2},
as do those of every other account. -/
theorem counters_stay_in_range (B : Bcrypt) (salt : String) (id : Nat)
    (email password : String) (others : Store)
    (hids : ((User.create B salt id email password :: others).map User._id).Nodup)
    (hothers : ∀ v ∈ others, countersInRange v) (ops : List Op) :
    (∃ u, findOne (run B (User.create B salt id email password :: others) ops) email = some u ∧
      u._id = id ∧
      (u.wrong_password_attempts = 0 ∨ u.wrong_password_attempts = 1 ∨
        u.wrong_password_attempts = 2) ∧
      (u.wrong_pin_attempts = 0 ∨ u.wrong_pin_attempts = 1 ∨ u.wrong_pin_attempts = 2)) ∧
    (∀ v ∈ run B (User.create B salt id email password :: others) ops,
      v.wrong_password_attempts < 3 ∧ v.wrong_pin_attempts < 3) := by
  have hstart : ∀ v ∈ User.create B salt id email password :: others, countersInRange v := by
    intro v hv
    rcases List.mem_cons.mp hv with rfl | hv
    · exact ⟨Nat.zero_lt_succ 2, Nat.zero_lt_succ 2⟩
    · exact hothers v hv
  obtain ⟨h1, h2, h3⟩ := run_invariant B ops _ hids hstart
  refine ⟨?_, h3⟩
  cases hrun : run B (User.create B salt id email password :: others) ops with
  | nil => rw [hrun] at h1; cases h1
  | cons u rest =>
    rw [hrun] at h1 h2 h3
    simp only [List.map_cons, List.cons.injEq] at h1 h2
    have hu := h3 u (List.mem_cons_self _ _)
    have hid : u._id = id := h1.1
    have hemail : u.email = email := h2.1
    refine ⟨u, by simp [findOne, hemail], hid, ?_, ?_⟩
    · have := hu.1; omega
    · have := hu.2; omega

theorem counters_stay_in_range_witness :
    (∃ u, findOne (run toyBcrypt (User.create toyBcrypt "salt" 8 "n@b.co" "good" :: [lockedUser])
          sampleOps) "n@b.co" = some u ∧
      u._id = 8 ∧
      (u.wrong_password_attempts = 0 ∨ u.wrong_password_attempts = 1 ∨
        u.wrong_password_attempts = 2) ∧
      (u.wrong_pin_attempts = 0 ∨ u.wrong_pin_attempts = 1 ∨ u.wrong_pin_attempts = 2)) ∧
    (∀ v ∈ run toyBcrypt (User.create toyBcrypt "salt" 8 "n@b.co" "good" :: [lockedUser])
          sampleOps,
      v.wrong_password_attempts < 3 ∧ v.wrong_pin_attempts < 3) :=
  counters_stay_in_range toyBcrypt "salt" 8 "n@b.co" "good" [lockedUser] (by decide)
    (by intro v hv; rcases List.mem_singleton.mp hv with rfl; decide) sampleOps

/-! ## Further facts about the model -/

/-- One more wrong password at instant 1000 locks the account without a PIN
until 1801000 and resets its counter; on the sample account, which has a PIN
digest, the same call and a wrong PIN store nothing. -/
theorem third_failure_stored_without_pin_only :
    run toyBcrypt [pinlessUser] [.comparePassword "a@b.co" "wrong" ⟨1000, 1000⟩]
      = [{ pinlessUser with wrong_password_attempts := 0,
                            blocked_until_password := some 1801000 }] ∧
    run toyBcrypt [sampleUser]
        [.comparePassword "a@b.co" "wrong" ⟨1000, 1000⟩, .comparePin "a@b.co" "0000" ⟨1000, 1000⟩]
      = [sampleUser] :=
  ⟨rfl, rfl⟩

/-- The integer `ceilDiv a d` is the ceiling of the rational quotient. -/
theorem ceilDiv_eq_ceil (a : Int) (d : Nat) : ceilDiv a d = ⌈((a : ℚ) / (d : ℚ))⌉ := by
  unfold ceilDiv
  have h := Rat.floor_intCast_div_natCast (-a) d
  rw [← neg_neg ((a : ℚ) / (d : ℚ)), Int.ceil_neg, ← neg_div, ← Int.cast_neg, h]

/-- On an account without a stored digest for the credential, the update
throws the error of `bcrypt.compare` and leaves the collection as it was. -/
theorem update_without_digest_throws (B : Bcrypt) (salt : String) (s : Store)
    (email newValue : String) (u : User) (hfind : findOne s email = some u) :
    (u.password = none →
      updatePassword B salt s email newValue
        = (s, .error ⟨.Error, "Illegal arguments: string, undefined"⟩)) ∧
    (u.login_pin = none →
      updatePin B salt s email newValue
        = (s, .error ⟨.Error, "Illegal arguments: string, undefined"⟩)) := by
  constructor
  · intro h
    simp [updatePassword, hfind, h, Bcrypt.compare]
  · intro h
    simp [updatePin, hfind, h, Bcrypt.compare]

/-- For every account locked at the clock reading and every candidate,
`login` throws the fixed message of `comparePassword` and leaves the
collection as it was. -/
theorem login_blocked_fixed_message (B : Bcrypt) (env : Env) (clock : LoginClock) (s : Store)
    (email password : String) (doc : User) (t : Nat)
    (hemail : email ≠ "") (hpassword : password ≠ "")
    (hfind : findOne s email = some doc)
    (hblocked : doc.blocked_until_password = some t) (hlater : clock.compare.guard < t) :
    login B env clock s ⟨some email, some password⟩
      = (s, .error ⟨.UnauthenticateError,
          "Invalid login attempts exceeded. Please try after 30 minutes."⟩) := by
  have hb := isBlocked_of_later _ _ _ hblocked hlater
  have hcall : comparePassword B clock.compare doc password
      = { self := doc
          value := .error ⟨.UnauthenticateError,
            "Invalid login attempts exceeded. Please try after 30 minutes."⟩
          effects := [] } := by
    simp [comparePassword, hb]
  simp [login, hemail, hpassword, hfind, hcall, applyEffects]

/-! ## Failed logins below the lockout threshold -/

theorem findOne_email (s : Store) (email : String) (doc : User)
    (h : findOne s email = some doc) : doc.email = email := by
  have := List.find?_some h
  simpa using this

/-- After a loaded document that passes validation is saved with its identity
and email kept, the same lookup finds the saved document. -/
theorem findOne_saveDoc (s : Store) (email : String) (doc doc2 : User)
    (hfind : findOne s email = some doc) (hvalid : validate doc2 = none)
    (hid : doc2._id = doc._id) (hemail : doc2.email = doc.email) :
    findOne (saveDoc s doc2) email = some doc2 := by
  have hdoc2 : doc2.email = email := hemail.trans (findOne_email s email doc hfind)
  rw [saveDoc_of_valid s doc2 hvalid]
  induction s with
  | nil => cases hfind
  | cons v rest ih =>
    by_cases hv : v.email = email
    · have hvdoc : v = doc := by
        simpa [findOne, hv] using hfind
      have hvid : v._id = doc2._id := by rw [hvdoc, hid]
      simp [findOne, hvid, hdoc2]
    · have hrest : findOne rest email = some doc := by
        simpa [findOne, hv] using hfind
      have ih2 : List.find? (fun u => decide (u.email = email))
          (List.map (fun u => if u._id = doc2._id then doc2 else u) rest) = some doc2 :=
        ih hrest
      by_cases hvid : v._id = doc2._id
      · simp [findOne, hvid, hdoc2]
      · simp [findOne, hvid, hv, ih2]

/-- When the lockout timestamp of the document is unset or not later than the
reading of the blocked test, `login` builds the attempts message. -/
theorem loginFailureMessage_not_blocked (clock : LoginClock) (user : User)
    (h : ∀ t, user.blocked_until_password = some t → t ≤ clock.check) :
    loginFailureMessage clock user
      = if (3 : Int) - (user.wrong_password_attempts : Int) > 0 then
          "Invalid password. You have "
            ++ toString ((3 : Int) - (user.wrong_password_attempts : Int))
            ++ " attempts remaining "
        else "Invalid login attempts exceeded. Please try after 30 minutes." := by
  unfold loginFailureMessage
  cases hb : user.blocked_until_password with
  | none => rfl
  | some t =>
    have hle : ¬ t > clock.check := Nat.not_lt.mpr (h t hb)
    simp [hle]

/-- On an account whose document passes the validation of `save()`, not
actively locked and with c recorded failures, c being 0 or 1, a login with a
wrong password fails with the message reporting 3 − (c + 1) attempts
remaining, and the stored account is the old one with
`wrong_password_attempts = c + 1`. The clock does not run backwards between
the guard of `comparePassword` and the blocked test of `login`. -/
theorem login_wrong_password_counts_of_valid (B : Bcrypt) (env : Env) (clock : LoginClock)
    (s : Store) (email password : String) (doc : User) (c : Nat)
    (hemail : email ≠ "") (hpassword : password ≠ "")
    (hfind : findOne s email = some doc)
    (hvalid : validate doc = none)
    (hopen : ∀ t, doc.blocked_until_password = some t → t ≤ clock.compare.guard)
    (hclock : clock.compare.guard ≤ clock.check)
    (hc : c = 0 ∨ c = 1)
    (hcount : doc.wrong_password_attempts = c)
    (hcmp : B.compare password doc.password = .ok false) :
    (login B env clock s ⟨some email, some password⟩).2
      = .error ⟨.UnauthenticateError,
          "Invalid password. You have " ++ toString ((3 : Int) - ((c + 1 : Nat) : Int))
            ++ " attempts remaining "⟩ ∧
    (c = 0 → (login B env clock s ⟨some email, some password⟩).2
      = .error ⟨.UnauthenticateError, "Invalid password. You have 2 attempts remaining "⟩) ∧
    (c = 1 → (login B env clock s ⟨some email, some password⟩).2
      = .error ⟨.UnauthenticateError, "Invalid password. You have 1 attempts remaining "⟩) ∧
    (∃ v, findOne (login B env clock s ⟨some email, some password⟩).1 email = some v ∧
      v = { doc with wrong_password_attempts := c + 1 } ∧
      v.wrong_password_attempts = c + 1 ∧
      v.blocked_until_password = doc.blocked_until_password) := by
  have hb := isBlocked_of_not_later _ _ hopen
  have hlt : ¬ (c + 1 ≥ 3) := by omega
  have hv2 : validate { doc with wrong_password_attempts := c + 1 } = none :=
    (validate_congr _ doc rfl rfl rfl rfl).trans hvalid
  have hcall : comparePassword B clock.compare doc password
      = { self := { doc with wrong_password_attempts := c + 1 }
          value := .ok false
          effects := [.bcryptCompare password doc.password,
            .save { doc with wrong_password_attempts := c + 1 }] } := by
    simp [comparePassword, hb, hcmp, hcount, hlt, afterSave, hv2]
  have hmsg : loginFailureMessage clock { doc with wrong_password_attempts := c + 1 }
      = "Invalid password. You have " ++ toString ((3 : Int) - ((c + 1 : Nat) : Int))
          ++ " attempts remaining " := by
    have hnb := loginFailureMessage_not_blocked clock
      { doc with wrong_password_attempts := c + 1 }
      (fun t ht => le_trans (hopen t ht) hclock)
    rw [hnb]
    have hpos : (3 : Int) - ((c + 1 : Nat) : Int) > 0 := by omega
    simp only [hpos, if_true]
  have hlogin : login B env clock s ⟨some email, some password⟩
      = (saveDoc s { doc with wrong_password_attempts := c + 1 },
          .error ⟨.UnauthenticateError,
            "Invalid password. You have " ++ toString ((3 : Int) - ((c + 1 : Nat) : Int))
              ++ " attempts remaining "⟩) := by
    simp [login, hemail, hpassword, hfind, hcall, applyEffects, hmsg]
  refine ⟨by rw [hlogin], ?_, ?_, ?_⟩
  · intro h0
    subst h0
    rw [hlogin]
    rfl
  · intro h1
    subst h1
    rw [hlogin]
    rfl
  · refine ⟨_, ?_, rfl, rfl, rfl⟩
    rw [hlogin]
    exact findOne_saveDoc s email doc _ hfind hv2 rfl rfl

/-- On an account whose stored PIN is longer than four characters, as every
digest is, and that is not actively locked, `login` throws the
`ValidationError` of `save()` and leaves the collection as it was, whether the
password is right or wrong. -/
theorem login_save_rejected (B : Bcrypt) (env : Env) (clock : LoginClock) (s : Store)
    (email password pin : String) (doc : User) (isMatch : Bool)
    (hemail : email ≠ "") (hpassword : password ≠ "")
    (hfind : findOne s email = some doc)
    (hpin : doc.login_pin = some pin) (hlen : 4 < pin.length)
    (hopen : ∀ t, doc.blocked_until_password = some t → t ≤ clock.compare.guard)
    (hcmp : B.compare password doc.password = .ok isMatch) :
    (∃ e, (login B env clock s ⟨some email, some password⟩).2 = .error e ∧
      e.kind = .ValidationError) ∧
    (login B env clock s ⟨some email, some password⟩).1 = s := by
  have hb := isBlocked_of_not_later _ _ hopen
  obtain ⟨⟨e, hval, hkind⟩, hstore⟩ :=
    (compare_save_rejected B clock.compare doc password pin isMatch s hpin hlen).1 hb hcmp
  constructor
  · refine ⟨e, ?_, hkind⟩
    simp [login, hemail, hpassword, hfind, hval]
  · simp [login, hemail, hpassword, hfind, hval, hstore]

/-- From a freshly created account, which has no PIN, the first two wrong
passwords are answered with 2 and then 1 attempts remaining. -/
theorem login_fresh_account_two_failures :
    (login toyBcrypt sampleEnv ⟨⟨10, 11⟩, 12, 13, 14, 15⟩
        [User.create toyBcrypt "salt" 8 "n@b.co" "good"] ⟨some "n@b.co", some "bad"⟩).2
      = .error ⟨.UnauthenticateError, "Invalid password. You have 2 attempts remaining "⟩ ∧
    (login toyBcrypt sampleEnv ⟨⟨20, 21⟩, 22, 23, 24, 25⟩
        (login toyBcrypt sampleEnv ⟨⟨10, 11⟩, 12, 13, 14, 15⟩
          [User.create toyBcrypt "salt" 8 "n@b.co" "good"] ⟨some "n@b.co", some "bad"⟩).1
        ⟨some "n@b.co", some "bad"⟩).2
      = .error ⟨.UnauthenticateError, "Invalid password. You have 1 attempts remaining "⟩ :=
  ⟨(login_wrong_password_counts_of_valid toyBcrypt sampleEnv ⟨⟨10, 11⟩, 12, 13, 14, 15⟩
      [User.create toyBcrypt "salt" 8 "n@b.co" "good"] "n@b.co" "bad"
      (User.create toyBcrypt "salt" 8 "n@b.co" "good") 0 (by decide) (by decide) rfl rfl
      (by intro t h; simp [User.create] at h) (by decide) (Or.inl rfl) rfl rfl).2.1 rfl,
   (login_wrong_password_counts_of_valid toyBcrypt sampleEnv ⟨⟨20, 21⟩, 22, 23, 24, 25⟩
      (login toyBcrypt sampleEnv ⟨⟨10, 11⟩, 12, 13, 14, 15⟩
        [User.create toyBcrypt "salt" 8 "n@b.co" "good"] ⟨some "n@b.co", some "bad"⟩).1
      "n@b.co" "bad"
      { User.create toyBcrypt "salt" 8 "n@b.co" "good" with wrong_password_attempts := 1 }
      1 (by decide) (by decide) rfl rfl
      (by intro t h; simp [User.create] at h) (by decide) (Or.inr rfl) rfl rfl).2.2.1 rfl⟩

/-- C11, evaluated: the locked sample account has a stored PIN digest, no
recorded failure and a lockout that ended at 1801000. A login with a wrong
password at 1900000 throws the `ValidationError` of `save()` instead of the
"2 attempts remaining" message, and the stored counter stays 0; with one
recorded failure the same happens and the stored counter stays 1. -/
theorem login_wrong_password_not_counted :
    lockedUser.wrong_password_attempts = 0 ∧
    isBlocked lockedUser.blocked_until_password 1900000 = false ∧
    toyBcrypt.compare "wrong" lockedUser.password = .ok false ∧
    (∃ e, (login toyBcrypt sampleEnv ⟨⟨1900000, 1900001⟩, 1900002, 1900003, 0, 0⟩
          [lockedUser] ⟨some "a@b.co", some "wrong"⟩).2 = .error e ∧
      e.kind = .ValidationError) ∧
    (login toyBcrypt sampleEnv ⟨⟨1900000, 1900001⟩, 1900002, 1900003, 0, 0⟩
        [lockedUser] ⟨some "a@b.co", some "wrong"⟩).1 = [lockedUser] ∧
    (∃ e, (login toyBcrypt sampleEnv ⟨⟨1900000, 1900001⟩, 1900002, 1900003, 0, 0⟩
          [{ lockedUser with wrong_password_attempts := 1 }]
          ⟨some "a@b.co", some "wrong"⟩).2 = .error e ∧
      e.kind = .ValidationError) ∧
    (login toyBcrypt sampleEnv ⟨⟨1900000, 1900001⟩, 1900002, 1900003, 0, 0⟩
        [{ lockedUser with wrong_password_attempts := 1 }]
        ⟨some "a@b.co", some "wrong"⟩).1
      = [{ lockedUser with wrong_password_attempts := 1 }] :=
  ⟨rfl, rfl, rfl, ⟨_, rfl, rfl⟩, rfl, ⟨_, rfl, rfl⟩, rfl⟩

/-! ## The configuration read by a refresh -/

/-- `refreshToken` never reads `REFRESH_TOKEN_EXPIRY`: changing it changes no
answer. -/
theorem refreshToken_ignores_refresh_token_expiry (env : Env) (x : Option Nat)
    (clock : RefreshClock) (s : Store) (body : RefreshBody) :
    refreshToken { env with REFRESH_TOKEN_EXPIRY := x } clock s body
      = refreshToken env clock s body := rfl

/-- C12, evaluated: the sample account presents its refresh token with type
"app" at instant 2000. `createRefreshToken` at that instant signs a token
expiring `REFRESH_TOKEN_EXPIRY` = 604800 seconds later; the refresh rotates it
into one expiring `REFRESH_SOCKET_TOKEN_EXPIRY` = 86400 seconds later. Changing
only `REFRESH_SOCKET_TOKEN_EXPIRY` changes the rotated token, unsetting it
makes the "app" refresh fail, and unsetting `REFRESH_TOKEN_EXPIRY` changes
nothing. -/
theorem refreshToken_app_reads_socket_refresh_expiry :
    createRefreshToken sampleEnv 2000 sampleUser
      = .ok (.signed { userId := some 7, name := some "Ann" } "refresh" 2 604802) ∧
    refreshToken sampleEnv ⟨2000, 2000, 2000⟩ [sampleUser]
        ⟨some "app", some sampleRefreshToken⟩
      = .ok { status := 200
              access_token := none
              refresh_token :=
                some (.signed { userId := some 7, name := none } "refresh" 2 86402) } ∧
    refreshToken { sampleEnv with REFRESH_SOCKET_TOKEN_EXPIRY := some 5 } ⟨2000, 2000, 2000⟩
        [sampleUser] ⟨some "app", some sampleRefreshToken⟩
      = .ok { status := 200
              access_token := none
              refresh_token :=
                some (.signed { userId := some 7, name := none } "refresh" 2 7) } ∧
    refreshToken { sampleEnv with REFRESH_SOCKET_TOKEN_EXPIRY := none } ⟨2000, 2000, 2000⟩
        [sampleUser] ⟨some "app", some sampleRefreshToken⟩
      = .error ⟨.UnauthenticateError, "Invalid token"⟩ ∧
    refreshToken { sampleEnv with REFRESH_TOKEN_EXPIRY := none } ⟨2000, 2000, 2000⟩
        [sampleUser] ⟨some "app", some sampleRefreshToken⟩
      = .ok { status := 200
              access_token := none
              refresh_token :=
                some (.signed { userId := some 7, name := none } "refresh" 2 86402) } :=
  ⟨rfl, rfl, rfl, rfl, rfl⟩

/-- When `generateRefreshTokens` returns, the presented token verified under
the refresh secret, and the object holds an access token signed with the
access secret and expiry and a refresh token signed with the refresh secret
and expiry it was given. -/
theorem generateRefreshTokens_ok (clock : RefreshClock) (s : Store) (token : Token)
    (rs : Option String) (re : Option Nat) (as : Option String) (ae : Option Nat)
    (obj : TokenObject) (h : generateRefreshTokens clock s token rs re as ae = .ok obj) :
    ∃ payload access_token newRefreshToken,
      jwtVerify token rs clock.verify = .ok payload ∧
      jwtSign { userId := payload.userId, name := none } as ae clock.access
        = .ok access_token ∧
      jwtSign { userId := payload.userId, name := none } rs re clock.refresh
        = .ok newRefreshToken ∧
      obj = [("access_token", access_token), ("newRefreshToken", newRefreshToken)] := by
  unfold generateRefreshTokens at h
  simp only at h
  split at h
  · cases h
  · rename_i obj2 hbody
    cases h
    split at hbody
    · cases hbody
    · rename_i payload hverify
      split at hbody
      · cases hbody
      · split at hbody
        · cases hbody
        · rename_i access_token haccess
          split at hbody
          · cases hbody
          · rename_i newRefreshToken hrefresh
            cases hbody
            exact ⟨payload, access_token, newRefreshToken, hverify, haccess, hrefresh, rfl⟩

/-- Every successful "app" refresh returns a refresh token signed with
`REFRESH_TOKEN_SECRET` and the expiry `REFRESH_SOCKET_TOKEN_EXPIRY`. -/
theorem refreshToken_app_refresh_token (env : Env) (clock : RefreshClock) (s : Store)
    (token : Token) (r : RefreshResponse)
    (h : refreshToken env clock s ⟨some "app", some token⟩ = .ok r) :
    ∃ payload newRefreshToken,
      jwtVerify token env.REFRESH_TOKEN_SECRET clock.verify = .ok payload ∧
      jwtSign { userId := payload.userId, name := none } env.REFRESH_TOKEN_SECRET
        env.REFRESH_SOCKET_TOKEN_EXPIRY clock.refresh = .ok newRefreshToken ∧
      r.refresh_token = some newRefreshToken := by
  unfold refreshToken at h
  simp only at h
  split at h
  · cases h
  · simp only [show ("app" : String) ≠ "socket" by decide, if_false, if_true] at h
    split at h
    · cases h
    · rename_i obj hobj
      cases h
      obtain ⟨payload, access_token, newRefreshToken, hverify, _, hrefresh, rfl⟩ :=
        generateRefreshTokens_ok _ _ _ _ _ _ _ _ hobj
      exact ⟨payload, newRefreshToken, hverify, hrefresh, rfl⟩

end TradingServer
